import Mathlib

/-!
Verification of the resource graph declared by the SustainabilityCdkappStack
CDK application.  The repository has two variants of the stack class:
Variant B (src/lib/sustainability-cdkapp-stack.ts) declares two Lambda
functions, an inline IAM policy, a REST API with a usage plan and API key,
and a single S3 bucket; Variant A (src/unnamed/part_000) additionally
declares a log bucket, a CloudFront origin-access identity, a bucket policy,
a CloudFront distribution, a bucket deployment and a CloudFront URL output.

The embedding below transliterates each construct declaration into a Lean
value; construct properties that are CDK enum members become inductive
types, cross-construct references (bucket ARNs, OAI canonical users, the
deployed stage) become symbolic constructors carrying the referenced
construct id.
-/

namespace Cdk

inductive Runtime
  | NODEJS_16_X
deriving DecidableEq, Repr

inductive Architecture
  | X86_64
  | ARM_64
deriving DecidableEq, Repr

/-- Declaration of one aws-lambda Function construct; `architecture := none`
means the construct omits the property, leaving the platform default. -/
structure FunctionDecl where
  constructId : String
  runtime : Runtime
  description : String
  codeAsset : String
  handler : String
  functionName : String
  architecture : Option Architecture
  timeoutSeconds : Nat
deriving DecidableEq, Repr

/-- Symbolic IAM principal: the S3 canonical user of a CloudFront
origin-access identity, named by the OAI's construct id. -/
inductive Principal
  | canonicalUserOfOAI (oaiConstructId : String)
deriving DecidableEq, Repr

/-- Resource scope of a policy statement: the literal `*`, or
`bucket.arnForObjects(pattern)` named by the bucket's construct id. -/
inductive ResourceScope
  | star
  | arnForObjects (bucketConstructId : String) (pattern : String)
deriving DecidableEq, Repr

structure PolicyStatement where
  actions : List String
  resources : List ResourceScope
  principals : List Principal
deriving DecidableEq, Repr

/-- An `iam.Policy` attached inline via `fn.role?.attachInlinePolicy`;
`attachedToFunction` is the construct id of the function whose role
receives it. -/
structure InlinePolicyAttachment where
  policyConstructId : String
  attachedToFunction : String
  statements : List PolicyStatement
deriving DecidableEq, Repr

structure CorsOptions where
  allowHeaders : List String
  allowMethods : List String
  allowCredentials : Bool
  allowOrigins : List String
deriving DecidableEq, Repr

inductive EndpointType
  | REGIONAL
  | EDGE
  | PRIVATE
deriving DecidableEq, Repr

inductive Integration
  | lambdaIntegration (functionConstructId : String) (proxy : Bool)
deriving DecidableEq, Repr

structure MethodDecl where
  httpMethod : String
  integration : Integration
  apiKeyRequired : Bool
deriving DecidableEq, Repr

/-- One node of the REST API resource tree, as built by chained
`addResource` calls; `pathSegments` is the path from the root. -/
structure ApiResourceNode where
  pathSegments : List String
  methods : List MethodDecl
deriving DecidableEq, Repr

structure RestApiDecl where
  constructId : String
  description : String
  stageName : String
  endpointTypes : List EndpointType
  defaultCorsPreflightOptions : CorsOptions
  resources : List ApiResourceNode
deriving DecidableEq, Repr

inductive Period
  | MONTH
deriving DecidableEq, Repr

/-- Symbolic reference to `api.deploymentStage` of the named REST API. -/
inductive StageRef
  | deploymentStageOf (apiConstructId : String)
deriving DecidableEq, Repr

structure ApiStageBinding where
  apiConstructId : String
  stage : StageRef
deriving DecidableEq, Repr

structure UsagePlanDecl where
  constructId : String
  name : String
  description : String
  apiStages : List ApiStageBinding
  burstLimit : Nat
  rateLimit : Nat
  quotaLimit : Nat
  quotaPeriod : Period
  apiKeys : List String
deriving DecidableEq, Repr

inductive BlockPublicAccess
  | BLOCK_ALL
deriving DecidableEq, Repr

inductive RemovalPolicy
  | DESTROY
  | RETAIN
deriving DecidableEq, Repr

inductive BucketEncryption
  | S3_MANAGED
deriving DecidableEq, Repr

/-- Declaration of one S3 bucket; `resourcePolicy` collects the statements
added through `addToResourcePolicy`. -/
structure BucketDecl where
  constructId : String
  blockPublicAccess : BlockPublicAccess
  publicReadAccess : Bool
  versioned : Bool
  bucketName : String
  removalPolicy : RemovalPolicy
  encryption : BucketEncryption
  autoDeleteObjects : Bool
  enforceSSL : Bool
  resourcePolicy : List PolicyStatement
deriving DecidableEq, Repr

structure OriginAccessIdentityDecl where
  constructId : String
  comment : String
deriving DecidableEq, Repr

structure ErrorResponse where
  httpStatus : Nat
  responseHttpStatus : Nat
  responsePagePath : String
deriving DecidableEq, Repr

inductive ViewerProtocolPolicy
  | REDIRECT_TO_HTTPS
  | ALLOW_ALL
  | HTTPS_ONLY
deriving DecidableEq, Repr

inductive SecurityPolicyProtocol
  | TLS_V1_2_2021
deriving DecidableEq, Repr

inductive PriceClass
  | PRICE_CLASS_100
deriving DecidableEq, Repr

inductive AllowedMethods
  | ALLOW_GET_HEAD
  | ALLOW_GET_HEAD_OPTIONS
  | ALLOW_ALL
deriving DecidableEq, Repr

/-- S3 origin of a distribution behavior: the origin bucket's construct id
and, when set, the construct id of the origin-access identity. -/
structure S3OriginConfig where
  bucketConstructId : String
  originAccessIdentity : Option String
deriving DecidableEq, Repr

structure DefaultBehavior where
  origin : S3OriginConfig
  compress : Bool
  allowedMethods : AllowedMethods
  viewerProtocolPolicy : ViewerProtocolPolicy
deriving DecidableEq, Repr

structure DistributionDecl where
  constructId : String
  defaultRootObject : String
  errorResponses : List ErrorResponse
  comment : String
  minimumProtocolVersion : SecurityPolicyProtocol
  priceClass : PriceClass
  enableLogging : Bool
  logFilePrefix : String
  logBucket : String
  defaultBehavior : DefaultBehavior
deriving DecidableEq, Repr

structure BucketDeploymentDecl where
  constructId : String
  sourceAsset : String
  destinationBucket : String
  distribution : Option String
  distributionPaths : List String
deriving DecidableEq, Repr

/-- Value of a CfnOutput: the public domain name of the named distribution. -/
inductive OutputValue
  | domainNameOf (distributionConstructId : String)
deriving DecidableEq, Repr

structure CfnOutputDecl where
  constructId : String
  value : OutputValue
  description : String
  exportName : String
deriving DecidableEq, Repr

/-- The whole declared resource graph of one stack variant. -/
structure Stack where
  functions : List FunctionDecl
  inlinePolicies : List InlinePolicyAttachment
  restApis : List RestApiDecl
  usagePlans : List UsagePlanDecl
  apiKeys : List String
  buckets : List BucketDecl
  originAccessIdentities : List OriginAccessIdentityDecl
  distributions : List DistributionDecl
  bucketDeployments : List BucketDeploymentDecl
  outputs : List CfnOutputDecl
deriving DecidableEq, Repr

/-! Variant B: src/lib/sustainability-cdkapp-stack.ts. -/

namespace VariantB

open Cdk

def sustainabilityLambdaFn : FunctionDecl where
  constructId := "sustainability-core"
  runtime := Runtime.NODEJS_16_X
  description := "This lambda processes sustainability related logic"
  codeAsset := "__dirname/../src/sustainability"
  handler := "index.handler"
  functionName := "sustainability-core"
  architecture := none
  timeoutSeconds := 60

def hexCoreLambdaFn : FunctionDecl where
  constructId := "hex-core-dev"
  runtime := Runtime.NODEJS_16_X
  description := "This lambda processes sustainability related logic"
  codeAsset := "__dirname/../src/sustainability"
  handler := "index.handler"
  functionName := "hex-core-dev"
  architecture := some Architecture.ARM_64
  timeoutSeconds := 60

def sustainability_policy : InlinePolicyAttachment where
  policyConstructId := "sustainability-policy"
  attachedToFunction := "sustainability-core"
  statements :=
    [ { actions := ["cloudformation:ListStackResources"]
        resources := [ResourceScope.star]
        principals := [] },
      { actions := ["ec2:DescribeInstances"]
        resources := [ResourceScope.star]
        principals := [] },
      { actions := ["lambda:GetFunctionConfiguration"]
        resources := [ResourceScope.star]
        principals := [] },
      { actions := ["s3:GetLifecycleConfiguration"]
        resources := [ResourceScope.star]
        principals := [] } ]

def sustainability_apigw : RestApiDecl where
  constructId := "sustainability-api"
  description := "API triggers Sustainability"
  stageName := "dev"
  endpointTypes := [EndpointType.REGIONAL]
  defaultCorsPreflightOptions :=
    { allowHeaders := ["*"]
      allowMethods := ["OPTIONS", "GET", "POST", "PUT", "PATCH", "DELETE"]
      allowCredentials := true
      allowOrigins := ["*"] }
  resources :=
    [ { pathSegments := ["green"], methods := [] },
      { pathSegments := ["green", "v1"], methods := [] },
      { pathSegments := ["green", "v1", "sustainability"]
        methods :=
          [ { httpMethod := "POST"
              integration := Integration.lambdaIntegration "sustainability-core" true
              apiKeyRequired := true } ] } ]

def sustainability_usage_plan : UsagePlanDecl where
  constructId := "sustainability-usageplan"
  name := "sustainability-usageplan"
  description := "API key to access sustainability APIs"
  apiStages :=
    [ { apiConstructId := "sustainability-api"
        stage := StageRef.deploymentStageOf "sustainability-api" } ]
  burstLimit := 1
  rateLimit := 1
  quotaLimit := 1000
  quotaPeriod := Period.MONTH
  apiKeys := ["ApiKey"]

def siteBucket : BucketDecl where
  constructId := "Bucket"
  blockPublicAccess := BlockPublicAccess.BLOCK_ALL
  publicReadAccess := false
  versioned := false
  bucketName := "sustainability-proof-of-concept"
  removalPolicy := RemovalPolicy.DESTROY
  encryption := BucketEncryption.S3_MANAGED
  autoDeleteObjects := true
  enforceSSL := true
  resourcePolicy := []

def SustainabilityCdkappStack : Stack where
  functions := [sustainabilityLambdaFn, hexCoreLambdaFn]
  inlinePolicies := [sustainability_policy]
  restApis := [sustainability_apigw]
  usagePlans := [sustainability_usage_plan]
  apiKeys := ["ApiKey"]
  buckets := [siteBucket]
  originAccessIdentities := []
  distributions := []
  bucketDeployments := []
  outputs := []

end VariantB

/-! Variant A: src/unnamed/part_000 (Variant B's resources plus a log
bucket, an origin-access identity, a site-bucket policy, a CloudFront
distribution, a bucket deployment and a CloudFront URL output). -/

namespace VariantA

open Cdk

def sustainabilityLambdaFn : FunctionDecl where
  constructId := "sustainability-core"
  runtime := Runtime.NODEJS_16_X
  description := "This lambda processes sustainability related logic"
  codeAsset := "__dirname/../src/sustainability"
  handler := "index.handler"
  functionName := "sustainability-core"
  architecture := none
  timeoutSeconds := 60

def hexCoreLambdaFn : FunctionDecl where
  constructId := "hex-core-dev"
  runtime := Runtime.NODEJS_16_X
  description := "This lambda processes sustainability related logic"
  codeAsset := "__dirname/../src/sustainability"
  handler := "index.handler"
  functionName := "hex-core-dev"
  architecture := some Architecture.ARM_64
  timeoutSeconds := 60

def sustainability_policy : InlinePolicyAttachment where
  policyConstructId := "sustainability-policy"
  attachedToFunction := "sustainability-core"
  statements :=
    [ { actions := ["cloudformation:ListStackResources"]
        resources := [ResourceScope.star]
        principals := [] },
      { actions := ["ec2:DescribeInstances"]
        resources := [ResourceScope.star]
        principals := [] },
      { actions := ["lambda:GetFunctionConfiguration"]
        resources := [ResourceScope.star]
        principals := [] },
      { actions := ["s3:GetLifecycleConfiguration"]
        resources := [ResourceScope.star]
        principals := [] } ]

def sustainability_apigw : RestApiDecl where
  constructId := "sustainability-api"
  description := "API triggers Sustainability"
  stageName := "dev"
  endpointTypes := [EndpointType.REGIONAL]
  defaultCorsPreflightOptions :=
    { allowHeaders := ["*"]
      allowMethods := ["OPTIONS", "GET", "POST", "PUT", "PATCH", "DELETE"]
      allowCredentials := true
      allowOrigins := ["*"] }
  resources :=
    [ { pathSegments := ["green"], methods := [] },
      { pathSegments := ["green", "v1"], methods := [] },
      { pathSegments := ["green", "v1", "sustainability"]
        methods :=
          [ { httpMethod := "POST"
              integration := Integration.lambdaIntegration "sustainability-core" true
              apiKeyRequired := true } ] } ]

def sustainability_usage_plan : UsagePlanDecl where
  constructId := "sustainability-usageplan"
  name := "sustainability-usageplan"
  description := "API key to access sustainability APIs"
  apiStages :=
    [ { apiConstructId := "sustainability-api"
        stage := StageRef.deploymentStageOf "sustainability-api" } ]
  burstLimit := 1
  rateLimit := 1
  quotaLimit := 1000
  quotaPeriod := Period.MONTH
  apiKeys := ["ApiKey"]

def siteBucket : BucketDecl where
  constructId := "Bucket"
  blockPublicAccess := BlockPublicAccess.BLOCK_ALL
  publicReadAccess := false
  versioned := false
  bucketName := "cloud9-sustainability-poc-ui-bucket"
  removalPolicy := RemovalPolicy.DESTROY
  encryption := BucketEncryption.S3_MANAGED
  autoDeleteObjects := true
  enforceSSL := true
  resourcePolicy :=
    [ { actions := ["s3:GetObject"]
        resources := [ResourceScope.arnForObjects "Bucket" "*"]
        principals := [Principal.canonicalUserOfOAI "sfimage-cloudfront-OAI"] } ]

def logBucket : BucketDecl where
  constructId := "LogBucket"
  blockPublicAccess := BlockPublicAccess.BLOCK_ALL
  publicReadAccess := false
  versioned := false
  bucketName := "common-logging-cloud9-sustainability-poc-ui-bucket"
  removalPolicy := RemovalPolicy.DESTROY
  encryption := BucketEncryption.S3_MANAGED
  autoDeleteObjects := true
  enforceSSL := true
  resourcePolicy := []

def cloudfrontOAI : OriginAccessIdentityDecl where
  constructId := "sfimage-cloudfront-OAI"
  comment := "OAI for Salesforce static image CDN"

def distribution : DistributionDecl where
  constructId := "cloud9-sustainability-siteDistribution"
  defaultRootObject := "index.html"
  errorResponses :=
    [ { httpStatus := 404
        responseHttpStatus := 200
        responsePagePath := "/index.html" } ]
  comment := "This distribution hosts the static images from Salesforce"
  minimumProtocolVersion := SecurityPolicyProtocol.TLS_V1_2_2021
  priceClass := PriceClass.PRICE_CLASS_100
  enableLogging := true
  logFilePrefix := "cloud9-sustainability-cloudfront"
  logBucket := "LogBucket"
  defaultBehavior :=
    { origin :=
        { bucketConstructId := "Bucket"
          originAccessIdentity := some "sfimage-cloudfront-OAI" }
      compress := true
      allowedMethods := AllowedMethods.ALLOW_GET_HEAD_OPTIONS
      viewerProtocolPolicy := ViewerProtocolPolicy.REDIRECT_TO_HTTPS }

def deployWithInvalidation : BucketDeploymentDecl where
  constructId := "DeployWithInvalidation"
  sourceAsset := "./site-contents"
  destinationBucket := "Bucket"
  distribution := some "cloud9-sustainability-siteDistribution"
  distributionPaths := ["/*"]

def cloudFrontURLOutput : CfnOutputDecl where
  constructId := "CloudFrontURL"
  value := OutputValue.domainNameOf "cloud9-sustainability-siteDistribution"
  description := "The distribution URL"
  exportName := "CloudfrontURL"

def SustainabilityCdkappStack : Stack where
  functions := [sustainabilityLambdaFn, hexCoreLambdaFn]
  inlinePolicies := [sustainability_policy]
  restApis := [sustainability_apigw]
  usagePlans := [sustainability_usage_plan]
  apiKeys := ["ApiKey"]
  buckets := [siteBucket, logBucket]
  originAccessIdentities := [cloudfrontOAI]
  distributions := [distribution]
  bucketDeployments := [deployWithInvalidation]
  outputs := [cloudFrontURLOutput]

end VariantA

/-! Helper functions over the embedding, used by the theorems below. -/

/-- Characters of an IAM action name before the first colon. -/
def takeUntilColon : List Char → List Char
  | [] => []
  | c :: cs => if c = ':' then [] else c :: takeUntilColon cs

/-- Characters of an IAM action name after the first colon. -/
def dropThroughColon : List Char → List Char
  | [] => []
  | c :: cs => if c = ':' then cs else dropThroughColon cs

/-- Service part of an IAM action name, e.g. `ec2` of `ec2:DescribeInstances`. -/
def serviceOf (action : String) : String :=
  String.mk (takeUntilColon action.toList)

/-- Verb part of an IAM action name, e.g. `DescribeInstances`. -/
def actionVerb (action : String) : String :=
  String.mk (dropThroughColon action.toList)

/-- Boolean test that the first character list begins with the second. -/
def listStartsWith : List Char → List Char → Bool
  | _, [] => true
  | [], _ :: _ => false
  | c :: cs, d :: ds => c == d && listStartsWith cs ds

/-- An IAM action is read-only when its verb begins with Describe, List or
Get: such actions return descriptions of cloud state and mutate nothing. -/
def isReadOnlyAction (action : String) : Bool :=
  listStartsWith (actionVerb action).toList "Describe".toList ||
  listStartsWith (actionVerb action).toList "List".toList ||
  listStartsWith (actionVerb action).toList "Get".toList

/-- All actions granted by an inline policy, in statement order. -/
def policyActions (p : InlinePolicyAttachment) : List String :=
  (p.statements.map PolicyStatement.actions).flatten

/-- The bucket-policy statements of a bucket that grant s3:GetObject. -/
def getObjectStatements (b : BucketDecl) : List PolicyStatement :=
  b.resourcePolicy.filter (fun s => s.actions.contains "s3:GetObject")

/-! Claim theorems. -/

/-- C1: In Variant A the site bucket blocks all public access and grants no
public read, its resource policy consists of exactly one statement, that
statement is the only s3:GetObject grant and it names solely the canonical
user of the CloudFront origin-access identity as principal over the
bucket's objects, and the distribution's origin uses that same identity —
so a read of a site-bucket object is authorized only via the CDN. -/
theorem C1_oai_sole_reader_of_site_bucket :
    VariantA.siteBucket.blockPublicAccess = BlockPublicAccess.BLOCK_ALL ∧
    VariantA.siteBucket.publicReadAccess = false ∧
    getObjectStatements VariantA.siteBucket = VariantA.siteBucket.resourcePolicy ∧
    VariantA.siteBucket.resourcePolicy =
      [ { actions := ["s3:GetObject"]
          resources := [ResourceScope.arnForObjects "Bucket" "*"]
          principals := [Principal.canonicalUserOfOAI "sfimage-cloudfront-OAI"] } ] ∧
    VariantA.cloudfrontOAI.constructId = "sfimage-cloudfront-OAI" ∧
    VariantA.distribution.defaultBehavior.origin =
      { bucketConstructId := VariantA.siteBucket.constructId
        originAccessIdentity := some "sfimage-cloudfront-OAI" } ∧
    VariantA.SustainabilityCdkappStack.originAccessIdentities = [VariantA.cloudfrontOAI] := by
  decide

/-- C2: In both variants the single usage plan has burst limit 1, rate
limit 1 and a quota of 1000 requests per MONTH, the stack's single API key
is added to exactly that plan, and the plan's api-stage binding references
the deployed stage of the declared REST API (whose stage is `dev`). -/
theorem C2_usage_plan_limits_key_and_stage :
    (VariantB.SustainabilityCdkappStack.usagePlans = [VariantB.sustainability_usage_plan] ∧
     VariantB.sustainability_usage_plan.burstLimit = 1 ∧
     VariantB.sustainability_usage_plan.rateLimit = 1 ∧
     VariantB.sustainability_usage_plan.quotaLimit = 1000 ∧
     VariantB.sustainability_usage_plan.quotaPeriod = Period.MONTH ∧
     VariantB.SustainabilityCdkappStack.apiKeys = ["ApiKey"] ∧
     VariantB.sustainability_usage_plan.apiKeys = ["ApiKey"] ∧
     VariantB.sustainability_usage_plan.apiStages =
       [ { apiConstructId := VariantB.sustainability_apigw.constructId
           stage := StageRef.deploymentStageOf VariantB.sustainability_apigw.constructId } ] ∧
     VariantB.SustainabilityCdkappStack.restApis = [VariantB.sustainability_apigw] ∧
     VariantB.sustainability_apigw.stageName = "dev") ∧
    (VariantA.SustainabilityCdkappStack.usagePlans = [VariantA.sustainability_usage_plan] ∧
     VariantA.sustainability_usage_plan.burstLimit = 1 ∧
     VariantA.sustainability_usage_plan.rateLimit = 1 ∧
     VariantA.sustainability_usage_plan.quotaLimit = 1000 ∧
     VariantA.sustainability_usage_plan.quotaPeriod = Period.MONTH ∧
     VariantA.SustainabilityCdkappStack.apiKeys = ["ApiKey"] ∧
     VariantA.sustainability_usage_plan.apiKeys = ["ApiKey"] ∧
     VariantA.sustainability_usage_plan.apiStages =
       [ { apiConstructId := VariantA.sustainability_apigw.constructId
           stage := StageRef.deploymentStageOf VariantA.sustainability_apigw.constructId } ] ∧
     VariantA.SustainabilityCdkappStack.restApis = [VariantA.sustainability_apigw] ∧
     VariantA.sustainability_apigw.stageName = "dev") := by
  decide

/-- C3: In both variants exactly one inline identity policy is attached,
to the sustainability function's execution role; its statements grant
exactly the four listed actions, one per distinct service, and every
granted action is a read-only Describe/List/Get action. -/
theorem C3_single_readonly_inline_policy :
    (VariantB.SustainabilityCdkappStack.inlinePolicies = [VariantB.sustainability_policy] ∧
     VariantB.sustainability_policy.attachedToFunction =
       VariantB.sustainabilityLambdaFn.constructId ∧
     policyActions VariantB.sustainability_policy =
       ["cloudformation:ListStackResources", "ec2:DescribeInstances",
        "lambda:GetFunctionConfiguration", "s3:GetLifecycleConfiguration"] ∧
     (policyActions VariantB.sustainability_policy).all isReadOnlyAction = true ∧
     (policyActions VariantB.sustainability_policy).map serviceOf =
       ["cloudformation", "ec2", "lambda", "s3"] ∧
     ((policyActions VariantB.sustainability_policy).map serviceOf).Nodup) ∧
    (VariantA.SustainabilityCdkappStack.inlinePolicies = [VariantA.sustainability_policy] ∧
     VariantA.sustainability_policy.attachedToFunction =
       VariantA.sustainabilityLambdaFn.constructId ∧
     policyActions VariantA.sustainability_policy =
       ["cloudformation:ListStackResources", "ec2:DescribeInstances",
        "lambda:GetFunctionConfiguration", "s3:GetLifecycleConfiguration"] ∧
     (policyActions VariantA.sustainability_policy).all isReadOnlyAction = true ∧
     (policyActions VariantA.sustainability_policy).map serviceOf =
       ["cloudformation", "ec2", "lambda", "s3"] ∧
     ((policyActions VariantA.sustainability_policy).map serviceOf).Nodup) := by
  decide

/-- C4: In both variants the REST API's resource tree is exactly the chain
green / v1 / sustainability, only the leaf carries a method, and that sole
method is POST with apiKeyRequired, proxy-integrated with the
sustainability Lambda function. -/
theorem C4_resource_tree_single_post_proxy :
    (VariantB.SustainabilityCdkappStack.restApis = [VariantB.sustainability_apigw] ∧
     VariantB.sustainability_apigw.resources =
       [ { pathSegments := ["green"], methods := [] },
         { pathSegments := ["green", "v1"], methods := [] },
         { pathSegments := ["green", "v1", "sustainability"]
           methods :=
             [ { httpMethod := "POST"
                 integration :=
                   Integration.lambdaIntegration
                     VariantB.sustainabilityLambdaFn.constructId true
                 apiKeyRequired := true } ] } ]) ∧
    (VariantA.SustainabilityCdkappStack.restApis = [VariantA.sustainability_apigw] ∧
     VariantA.sustainability_apigw.resources =
       [ { pathSegments := ["green"], methods := [] },
         { pathSegments := ["green", "v1"], methods := [] },
         { pathSegments := ["green", "v1", "sustainability"]
           methods :=
             [ { httpMethod := "POST"
                 integration :=
                   Integration.lambdaIntegration
                     VariantA.sustainabilityLambdaFn.constructId true
                 apiKeyRequired := true } ] } ]) := by
  decide

/-- C5: In both variants exactly two Lambda functions are declared; they
share the code asset, handler, runtime, description and the 60-second
timeout, and differ only in name and architecture: hex-core-dev is ARM_64
and sustainability-core leaves the architecture at the default. -/
theorem C5_two_functions_same_artifact :
    (VariantB.SustainabilityCdkappStack.functions =
       [VariantB.sustainabilityLambdaFn, VariantB.hexCoreLambdaFn] ∧
     VariantB.sustainabilityLambdaFn.codeAsset = VariantB.hexCoreLambdaFn.codeAsset ∧
     VariantB.sustainabilityLambdaFn.handler = VariantB.hexCoreLambdaFn.handler ∧
     VariantB.sustainabilityLambdaFn.runtime = VariantB.hexCoreLambdaFn.runtime ∧
     VariantB.sustainabilityLambdaFn.description = VariantB.hexCoreLambdaFn.description ∧
     VariantB.sustainabilityLambdaFn.timeoutSeconds = 60 ∧
     VariantB.hexCoreLambdaFn.timeoutSeconds = 60 ∧
     VariantB.sustainabilityLambdaFn.functionName = "sustainability-core" ∧
     VariantB.hexCoreLambdaFn.functionName = "hex-core-dev" ∧
     VariantB.sustainabilityLambdaFn.architecture = none ∧
     VariantB.hexCoreLambdaFn.architecture = some Architecture.ARM_64) ∧
    (VariantA.SustainabilityCdkappStack.functions =
       [VariantA.sustainabilityLambdaFn, VariantA.hexCoreLambdaFn] ∧
     VariantA.sustainabilityLambdaFn.codeAsset = VariantA.hexCoreLambdaFn.codeAsset ∧
     VariantA.sustainabilityLambdaFn.handler = VariantA.hexCoreLambdaFn.handler ∧
     VariantA.sustainabilityLambdaFn.runtime = VariantA.hexCoreLambdaFn.runtime ∧
     VariantA.sustainabilityLambdaFn.description = VariantA.hexCoreLambdaFn.description ∧
     VariantA.sustainabilityLambdaFn.timeoutSeconds = 60 ∧
     VariantA.hexCoreLambdaFn.timeoutSeconds = 60 ∧
     VariantA.sustainabilityLambdaFn.functionName = "sustainability-core" ∧
     VariantA.hexCoreLambdaFn.functionName = "hex-core-dev" ∧
     VariantA.sustainabilityLambdaFn.architecture = none ∧
     VariantA.hexCoreLambdaFn.architecture = some Architecture.ARM_64) := by
  decide

/-- C6: Every bucket declared in either variant (the single bucket in
Variant B, the site and log buckets in Variant A) has removal policy
DESTROY and autoDeleteObjects set. -/
theorem C6_all_buckets_destroy_and_auto_delete :
    VariantB.SustainabilityCdkappStack.buckets = [VariantB.siteBucket] ∧
    VariantA.SustainabilityCdkappStack.buckets = [VariantA.siteBucket, VariantA.logBucket] ∧
    (VariantA.SustainabilityCdkappStack.buckets ++
      VariantB.SustainabilityCdkappStack.buckets).all
      (fun b => b.removalPolicy == RemovalPolicy.DESTROY && b.autoDeleteObjects) = true := by
  decide

/-- C7: In Variant A the distribution's default behavior redirects HTTP
viewers to HTTPS, the default root object is index.html, and a 404 from
the origin is remapped to status 200 with response page /index.html. -/
theorem C7_distribution_https_root_and_error_remap :
    VariantA.SustainabilityCdkappStack.distributions = [VariantA.distribution] ∧
    VariantA.distribution.defaultBehavior.viewerProtocolPolicy =
      ViewerProtocolPolicy.REDIRECT_TO_HTTPS ∧
    VariantA.distribution.defaultRootObject = "index.html" ∧
    VariantA.distribution.errorResponses =
      [ { httpStatus := 404, responseHttpStatus := 200, responsePagePath := "/index.html" } ] := by
  decide

/-- C8: In both variants the default CORS preflight configuration allows
all origins, all headers, and exactly OPTIONS, GET, POST, PUT, PATCH and
DELETE. -/
theorem C8_cors_preflight_configuration :
    (VariantB.sustainability_apigw.defaultCorsPreflightOptions.allowOrigins = ["*"] ∧
     VariantB.sustainability_apigw.defaultCorsPreflightOptions.allowHeaders = ["*"] ∧
     VariantB.sustainability_apigw.defaultCorsPreflightOptions.allowMethods =
       ["OPTIONS", "GET", "POST", "PUT", "PATCH", "DELETE"]) ∧
    (VariantA.sustainability_apigw.defaultCorsPreflightOptions.allowOrigins = ["*"] ∧
     VariantA.sustainability_apigw.defaultCorsPreflightOptions.allowHeaders = ["*"] ∧
     VariantA.sustainability_apigw.defaultCorsPreflightOptions.allowMethods =
       ["OPTIONS", "GET", "POST", "PUT", "PATCH", "DELETE"]) := by
  decide

/-- C9: In both variants the CORS preflight configuration sets
allowCredentials true while also allowing the wildcard origin. -/
theorem C9_credentialed_wildcard_cors :
    (VariantB.sustainability_apigw.defaultCorsPreflightOptions.allowCredentials = true ∧
     VariantB.sustainability_apigw.defaultCorsPreflightOptions.allowOrigins = ["*"]) ∧
    (VariantA.sustainability_apigw.defaultCorsPreflightOptions.allowCredentials = true ∧
     VariantA.sustainability_apigw.defaultCorsPreflightOptions.allowOrigins = ["*"]) := by
  decide

/-- C10: Every bucket declared in either variant sets enforceSSL, denying
non-TLS transport in addition to the public-access block. -/
theorem C10_all_buckets_enforce_ssl :
    VariantB.SustainabilityCdkappStack.buckets = [VariantB.siteBucket] ∧
    VariantA.SustainabilityCdkappStack.buckets = [VariantA.siteBucket, VariantA.logBucket] ∧
    (VariantA.SustainabilityCdkappStack.buckets ++
      VariantB.SustainabilityCdkappStack.buckets).all
      (fun b => b.enforceSSL) = true := by
  decide

end Cdk
